import Mathlib

/-! Mixxx DJ Buddy: the polling-and-publish pipeline.

A shallow embedding of `main.go`: the SQL text that `pollMixxxDB` sends to
SQLite (session playlist selection, enrichment columns, ordering), the row
loop that assembles `[]TrackData`, the commit to `appState`, the two sleeps
of the loop, and the body `serveData` writes.

Conventions of the embedding.

* SQL tables are lists of rows; `JOIN` is a nested loop, `WHERE` a filter,
  `ORDER BY` a stable insertion sort, a scalar subquery the first row of its
  result or NULL (`none`).
* `GLOB` is SQLite's case-sensitive matcher restricted to the
  metacharacters that occur in the patterns of the query: `*` and `?`.
* `float64` values are rationals: the only operation the code performs on
  them is the comparison `bpm > 0`.
* A Go slice that is only ever built with `append` from the zero value is
  `nil` exactly when it is empty, so `[]TrackData` is a `List TrackData`
  whose `[]` stands for the nil slice.
* Logging is not modelled: it never influences `appState`.
-/

namespace MixxxBuddy

/-! ## SQLite `GLOB` -/

/-- One element of a GLOB pattern. -/
inductive GlobTok where
  | star
  | any
  | lit (c : Char)
deriving DecidableEq, Repr

/-- Reading of one pattern character: `*` matches any run of characters,
`?` exactly one character, everything else itself. -/
def globTok (c : Char) : GlobTok :=
  if c = '*' then GlobTok.star else if c = '?' then GlobTok.any else GlobTok.lit c

/-- Matching of `*`: the rest of the pattern is tried at every suffix. -/
def globStar (rest : List Char → Bool) : List Char → Bool
  | [] => rest []
  | c :: s => rest (c :: s) || globStar rest s

/-- Matching of a tokenised pattern against the characters of a name. -/
def globAux : List GlobTok → List Char → Bool
  | [], s => s.isEmpty
  | GlobTok.star :: p, s => globStar (fun t => globAux p t) s
  | GlobTok.any :: _, [] => false
  | GlobTok.any :: p, _ :: s => globAux p s
  | GlobTok.lit _ :: _, [] => false
  | GlobTok.lit c :: p, d :: s => d == c && globAux p s

/-- The SQL operator `name GLOB pattern`. -/
def glob (pattern name : String) : Bool :=
  globAux (pattern.toList.map globTok) name.toList

/-- The `WHERE` clause of the inner `SELECT P.id` (main.go line 181). -/
def isSessionName (name : String) : Bool :=
  glob "????-??-??" name || glob "????-??-?? (*)" name || glob "????-??-?? #*" name

/-- The name conditions of the `playlists` subquery (main.go lines 171-173):
three `NOT GLOB` tests joined by `AND`. -/
def tagNameAllowed (name : String) : Bool :=
  !glob "????-??-??" name && !glob "????-??-?? (*" name && !glob "????-??-?? #*" name

/-! ## Database -/

/-- Modelled from the spec: the schema of the Mixxx database is not part of
the repository. A row of `library`: identity, bpm, artist, title, duration;
every column but the identity may be NULL. -/
structure LibraryRow where
  id : Int
  bpm : Option ℚ
  artist : Option String
  title : Option String
  duration : Option ℚ
deriving DecidableEq

/-- Modelled from the spec: a row of `Playlists`: identity, name, creation
timestamp, hidden flag. -/
structure Playlist where
  id : Int
  name : String
  date_created : Int
  hidden : Int
deriving DecidableEq

/-- Modelled from the spec: a row of `PlaylistTracks`: playlist id, track
id, position. -/
structure PlaylistTrack where
  playlist_id : Int
  track_id : Int
  position : Int
deriving DecidableEq

/-- Modelled from the spec: a row of `crates`: identity and name. -/
structure Crate where
  id : Int
  name : String
deriving DecidableEq

/-- Modelled from the spec: a row of `crate_tracks`: crate id, track id. -/
structure CrateTrack where
  crate_id : Int
  track_id : Int
deriving DecidableEq

/-- The five tables the query reads. -/
structure Database where
  library : List LibraryRow
  Playlists : List Playlist
  PlaylistTracks : List PlaylistTrack
  crates : List Crate
  crate_tracks : List CrateTrack
deriving DecidableEq

/-! ## The query of `pollMixxxDB` -/

/-- SQL `GROUP_CONCAT(x, ', ')`: NULL over no rows. -/
def groupConcat (names : List String) : Option String :=
  match names with
  | [] => none
  | _ :: _ => some (", ".intercalate names)

/-- SQL `COALESCE(v, '')`. -/
def coalesceEmpty (v : Option String) : String :=
  match v with
  | some s => s
  | none => ""

/-- Rows of `crate_tracks CT JOIN crates C ON CT.crate_id = C.id
WHERE CT.track_id = T.id`, projected on `C.name`. -/
def crateNames (db : Database) (trackId : Int) : List String :=
  db.crate_tracks.flatMap fun ct =>
    db.crates.flatMap fun c =>
      if ct.crate_id = c.id ∧ ct.track_id = trackId then [c.name] else []

/-- Rows of `PlaylistTracks PT2 JOIN Playlists P2 ON PT2.playlist_id = P2.id`
that pass the `WHERE` clause of lines 170-174. -/
def tagPlaylists (db : Database) (trackId : Int) : List Playlist :=
  db.PlaylistTracks.flatMap fun pt2 =>
    db.Playlists.flatMap fun p2 =>
      if pt2.playlist_id = p2.id ∧ pt2.track_id = trackId
          ∧ tagNameAllowed p2.name = true ∧ p2.hidden = 0 then [p2] else []

/-- The names handed to `GROUP_CONCAT(P2.name, ', ')`. -/
def tagNames (db : Database) (trackId : Int) : List String :=
  (tagPlaylists db trackId).map fun p2 => p2.name

/-- `ORDER BY P.date_created DESC`. -/
def newerFirst (a b : Playlist) : Prop := b.date_created ≤ a.date_created

instance newerFirstDecidable : DecidableRel newerFirst :=
  fun a b => inferInstanceAs (Decidable (b.date_created ≤ a.date_created))

instance newerFirstTotal : IsTotal Playlist newerFirst :=
  ⟨fun a b => Int.le_total b.date_created a.date_created⟩

instance newerFirstTrans : IsTrans Playlist newerFirst :=
  ⟨fun _ _ _ hab hbc => Int.le_trans hbc hab⟩

/-- The inner `SELECT ... FROM Playlists P WHERE ... ORDER BY P.date_created
DESC LIMIT 1`, before projection on `P.id`. -/
def sessionCandidates (db : Database) : List Playlist :=
  ((db.Playlists.filter fun p => isSessionName p.name).insertionSort newerFirst).take 1

/-- The playlist row the scalar subquery reads, if there is one. -/
def sessionPlaylist (db : Database) : Option Playlist :=
  (sessionCandidates db).head?

/-- Value of the scalar subquery: `P.id` of the first row, NULL without a row. -/
def sessionPlaylistId (db : Database) : Option Int :=
  (sessionPlaylist db).map fun p => p.id

/-- `ORDER BY PT."position" ASC`. -/
def byPosition (x y : PlaylistTrack × LibraryRow) : Prop := x.1.position ≤ y.1.position

instance byPositionDecidable : DecidableRel byPosition :=
  fun x y => inferInstanceAs (Decidable (x.1.position ≤ y.1.position))

instance byPositionTotal : IsTotal (PlaylistTrack × LibraryRow) byPosition :=
  ⟨fun x y => Int.le_total x.1.position y.1.position⟩

instance byPositionTrans : IsTrans (PlaylistTrack × LibraryRow) byPosition :=
  ⟨fun _ _ _ hab hbc => Int.le_trans hab hbc⟩

/-- `FROM library T JOIN PlaylistTracks PT ON T.id = PT.track_id
WHERE PT.playlist_id = (subquery)`; a comparison with NULL selects nothing. -/
def sessionJoinUnordered (db : Database) : List (PlaylistTrack × LibraryRow) :=
  db.library.flatMap fun t =>
    db.PlaylistTracks.flatMap fun pt =>
      if t.id = pt.track_id ∧ some pt.playlist_id = sessionPlaylistId db then [(pt, t)] else []

/-- The joined rows of the outer query in the order of `ORDER BY`. -/
def sessionJoin (db : Database) : List (PlaylistTrack × LibraryRow) :=
  (sessionJoinUnordered db).insertionSort byPosition

/-- One row of the result set, as `rows.Scan` sees it. -/
structure QueryRow where
  bpm : Option ℚ
  artist : Option String
  title : Option String
  duration : Option ℚ
  crates : Option String
  playlists : Option String
deriving DecidableEq

/-- The `SELECT` list for library row `t`. -/
def selectRow (db : Database) (t : LibraryRow) : QueryRow :=
  { bpm := t.bpm
    artist := t.artist
    title := t.title
    duration := t.duration
    crates := some (coalesceEmpty (groupConcat (crateNames db t.id)))
    playlists := some (coalesceEmpty (groupConcat (tagNames db t.id))) }

/-- The result set of the whole query. -/
def sessionQuery (db : Database) : List QueryRow :=
  (sessionJoin db).map fun x => selectRow db x.2

/-- What the poller finds when it calls `db.Query`: a database it can read,
or one that is locked or missing. -/
inductive DBStatus where
  | unavailable
  | available (db : Database)
deriving DecidableEq

/-- The call `db.Query(query)`: an error or the result set. -/
def dbQuery (st : DBStatus) : Except String (List QueryRow) :=
  match st with
  | DBStatus.unavailable => Except.error "query failed"
  | DBStatus.available db => Except.ok (sessionQuery db)

/-! ## The Go side -/

/-- The struct `TrackData`. -/
structure TrackData where
  BPM : ℚ
  Artist : String
  Title : String
  Duration : ℚ
  Crates : String
  Playlists : String
deriving DecidableEq

/-- The struct `AppState` without its mutex. -/
structure AppState where
  tracks : List TrackData
deriving DecidableEq

/-- The zero value of the global `appState`. -/
def initialState : AppState := { tracks := [] }

/-- Body of the `rows.Next()` loop for one row (lines 197-238): `none` when
nothing is appended. Scanning NULL into the `float64` destination is a scan
error and the row is skipped by `continue`. -/
def scanRow (r : QueryRow) : Option TrackData :=
  match r.bpm with
  | none => none
  | some bpm =>
    if bpm > 0 then
      some
        { BPM := bpm
          Artist :=
            match r.artist with
            | some a => if a ≠ "" then a else "Unknown Artist"
            | none => "Unknown Artist"
          Title :=
            match r.title with
            | some t => if t ≠ "" then t else "Unknown Title"
            | none => "Unknown Title"
          Duration :=
            match r.duration with
            | some d => d
            | none => 0
          Crates :=
            match r.crates with
            | some c => c
            | none => ""
          Playlists :=
            match r.playlists with
            | some p => p
            | none => "" }
    else none

/-- The `rows.Next()` loop: `currentTracks` starts nil and grows by `append`. -/
def buildTracks (rows : List QueryRow) : List TrackData :=
  rows.foldl
    (fun currentTracks r =>
      match scanRow r with
      | some t => currentTracks ++ [t]
      | none => currentTracks)
    []

/-- Seconds of `time.Sleep` on the error path (line 191). -/
def errorBackoff : Nat := 5

/-- Seconds of `time.Sleep` at the end of the loop body (line 255). -/
def baseInterval : Nat := 2

/-- One iteration of the `for` loop of `pollMixxxDB`: the state after it and
the `time.Sleep` calls it made, in seconds. On a query error the iteration
ends at `continue`. -/
def pollCycle (st : DBStatus) (s : AppState) : AppState × List Nat :=
  match dbQuery st with
  | Except.error _ => (s, [errorBackoff])
  | Except.ok rows => ({ tracks := buildTracks rows }, [baseInterval])

/-- The loop of `pollMixxxDB` run over the statuses met by its first
iterations. -/
def pollMixxxDB : List DBStatus → AppState → AppState × List Nat
  | [], s => (s, [])
  | st :: rest, s =>
    ((pollMixxxDB rest (pollCycle st s).1).1,
      (pollCycle st s).2 ++ (pollMixxxDB rest (pollCycle st s).1).2)

/-- What `json.NewEncoder(w).Encode` writes for a `[]TrackData`: `null` for
the nil slice, otherwise a JSON array, in both cases followed by a newline.
The encoding of one element is a parameter. -/
def encodeTracks (encodeTrack : TrackData → String) (tracks : List TrackData) : String :=
  match tracks with
  | [] => "null\n"
  | _ :: _ => "[" ++ ",".intercalate (tracks.map encodeTrack) ++ "]\n"

/-- The response of `serveData`. -/
structure Response where
  contentType : String
  body : String
deriving DecidableEq

/-- The handler `serveData`: reads `appState.tracks` and encodes it. -/
def serveData (encodeTrack : TrackData → String) (s : AppState) : Response :=
  { contentType := "application/json"
    body := encodeTracks encodeTrack s.tracks }

/-- What can happen to the store: a poll cycle or a read by `serveData`. -/
inductive Event where
  | poll (st : DBStatus)
  | read
deriving DecidableEq

/-- Effect of one event on `appState`. -/
def step (s : AppState) (e : Event) : AppState :=
  match e with
  | Event.poll st => (pollCycle st s).1
  | Event.read => s

/-- The store after a sequence of events, starting from `s`. -/
def runEvents (s : AppState) (es : List Event) : AppState :=
  es.foldl step s


/-! ## Shapes of names, stated without `GLOB` -/

/-- Two session playlists: `2024-01-01`, created on day 1, with two tracks
of which one has bpm 0, and `2024-01-02 (live)`, created on day 2, with one
track of bpm 128. -/
def scenarioDB : Database :=
  { library :=
      [ { id := 1, bpm := some 124, artist := some "Ana", title := some "One", duration := some 300 },
        { id := 2, bpm := some 0, artist := some "Ben", title := none, duration := none },
        { id := 3, bpm := some 128, artist := some "", title := some "Three", duration := some 200 } ]
    Playlists :=
      [ { id := 10, name := "2024-01-01", date_created := 1, hidden := 2 },
        { id := 11, name := "2024-01-02 (live)", date_created := 2, hidden := 2 } ]
    PlaylistTracks :=
      [ { playlist_id := 10, track_id := 1, position := 1 },
        { playlist_id := 10, track_id := 2, position := 2 },
        { playlist_id := 11, track_id := 3, position := 1 } ]
    crates := []
    crate_tracks := [] }

/-- The later session playlist of `scenarioDB`. -/
def scenarioLive : Playlist :=
  { id := 11, name := "2024-01-02 (live)", date_created := 2, hidden := 2 }

/-- The earlier session playlist of `scenarioDB`. -/
def scenarioEarly : Playlist :=
  { id := 10, name := "2024-01-01", date_created := 1, hidden := 2 }

/-- The track the poller builds from `scenarioDB`. -/
def scenarioTrack : TrackData :=
  { BPM := 128, Artist := "Unknown Artist", Title := "Three", Duration := 200, Crates := "",
    Playlists := "" }

/-- One track on the session playlist `2024-01-02`, on the visible playlist
`2024-01-01 (warmup` (no closing parenthesis), on the visible playlist
`Favourites` and on a hidden playlist. -/
def tagDB : Database :=
  { library :=
      [ { id := 7, bpm := some 128, artist := some "Ana", title := some "Seven", duration := some 240 } ]
    Playlists :=
      [ { id := 1, name := "2024-01-02", date_created := 2, hidden := 2 },
        { id := 2, name := "2024-01-01 (warmup", date_created := 1, hidden := 0 },
        { id := 3, name := "Favourites", date_created := 0, hidden := 0 },
        { id := 4, name := "Auto DJ", date_created := 0, hidden := 1 } ]
    PlaylistTracks :=
      [ { playlist_id := 1, track_id := 7, position := 1 },
        { playlist_id := 2, track_id := 7, position := 1 },
        { playlist_id := 3, track_id := 7, position := 5 },
        { playlist_id := 4, track_id := 7, position := 2 } ]
    crates := [ { id := 1, name := "House" } ]
    crate_tracks := [ { crate_id := 1, track_id := 7 } ] }

/-- The visible playlist of `tagDB` whose name opens a parenthesis and does
not close it. -/
def warmupPlaylist : Playlist :=
  { id := 2, name := "2024-01-01 (warmup", date_created := 1, hidden := 0 }

/-- The track the poller builds from `tagDB`. -/
def tagTrack : TrackData :=
  { BPM := 128, Artist := "Ana", Title := "Seven", Duration := 240, Crates := "House",
    Playlists := "Favourites" }

/-- A library with one analysed track on a playlist that is no session
playlist. -/
def noSessionDB : Database :=
  { library :=
      [ { id := 1, bpm := some 120, artist := some "Ana", title := some "One", duration := some 300 } ]
    Playlists := [ { id := 1, name := "Favourites", date_created := 1, hidden := 0 } ]
    PlaylistTracks := [ { playlist_id := 1, track_id := 1, position := 1 } ]
    crates := []
    crate_tracks := [] }

/-- A session playlist `2024-03-03 #2` whose five entries are stored out of
position order; their library rows have bpm 120, 0, NULL, 90 and -5. -/
def orderDB : Database :=
  { library :=
      [ { id := 1, bpm := some 120, artist := some "Ana", title := some "One", duration := some 300 },
        { id := 2, bpm := some 0, artist := some "Ben", title := some "Two", duration := some 310 },
        { id := 3, bpm := none, artist := some "Cy", title := some "Three", duration := some 320 },
        { id := 4, bpm := some 90, artist := none, title := some "Four", duration := none },
        { id := 5, bpm := some (-5), artist := some "Eve", title := some "Five", duration := some 340 } ]
    Playlists := [ { id := 1, name := "2024-03-03 #2", date_created := 7, hidden := 2 } ]
    PlaylistTracks :=
      [ { playlist_id := 1, track_id := 1, position := 4 },
        { playlist_id := 1, track_id := 2, position := 1 },
        { playlist_id := 1, track_id := 3, position := 2 },
        { playlist_id := 1, track_id := 4, position := 3 },
        { playlist_id := 1, track_id := 5, position := 5 } ]
    crates := []
    crate_tracks := [] }

/-- The session playlist of `orderDB`. -/
def orderPlaylist : Playlist :=
  { id := 1, name := "2024-03-03 #2", date_created := 7, hidden := 2 }

/-- The tracks the poller builds from `orderDB`: position 3 (bpm 90), then
position 4 (bpm 120). -/
def orderTracks : List TrackData :=
  [ { BPM := 90, Artist := "Unknown Artist", Title := "Four", Duration := 0, Crates := "",
      Playlists := "" },
    { BPM := 120, Artist := "Ana", Title := "One", Duration := 300, Crates := "",
      Playlists := "" } ]

/-! ## Lemmas on `GLOB` and on the query -/

theorem globStar_eq_true (rest : List Char → Bool) (s : List Char) :
    globStar rest s = true ↔ ∃ a b, s = a ++ b ∧ rest b = true := by
  induction s with
  | nil =>
    constructor
    · intro h; exact ⟨[], [], rfl, h⟩
    · rintro ⟨a, b, hab, hb⟩
      have : b = [] := by
        cases a <;> simp_all
      subst this; exact hb
  | cons c s ih =>
    simp only [globStar, Bool.or_eq_true, ih]
    constructor
    · rintro (h | ⟨a, b, rfl, hb⟩)
      · exact ⟨[], c :: s, rfl, h⟩
      · exact ⟨c :: a, b, rfl, hb⟩
    · rintro ⟨a, b, hab, hb⟩
      cases a with
      | nil => left; simp at hab; subst hab; exact hb
      | cons x a =>
        right
        simp at hab
        exact ⟨a, b, hab.2, hb⟩

theorem globStar_isEmpty (s : List Char) : globStar (fun t => t.isEmpty) s = true := by
  rw [globStar_eq_true]
  exact ⟨s, [], by simp, rfl⟩

theorem globStar_closing (s : List Char) :
    globStar (fun t => globAux [GlobTok.lit ')'] t) s = (s.getLast? == some ')') := by
  induction s with
  | nil => rfl
  | cons c s ih =>
    cases s with
    | nil => simp [globStar, globAux]
    | cons d s =>
      rw [globStar, ih]
      simp [globAux, List.getLast?_cons_cons]

theorem pattern_plain : "????-??-??".toList.map globTok =
    [GlobTok.any, GlobTok.any, GlobTok.any, GlobTok.any, GlobTok.lit '-', GlobTok.any, GlobTok.any,
      GlobTok.lit '-', GlobTok.any, GlobTok.any] := by decide

theorem pattern_paren : "????-??-?? (*)".toList.map globTok =
    [GlobTok.any, GlobTok.any, GlobTok.any, GlobTok.any, GlobTok.lit '-', GlobTok.any, GlobTok.any,
      GlobTok.lit '-', GlobTok.any, GlobTok.any, GlobTok.lit ' ', GlobTok.lit '(', GlobTok.star,
      GlobTok.lit ')'] := by decide

theorem pattern_hash : "????-??-?? #*".toList.map globTok =
    [GlobTok.any, GlobTok.any, GlobTok.any, GlobTok.any, GlobTok.lit '-', GlobTok.any, GlobTok.any,
      GlobTok.lit '-', GlobTok.any, GlobTok.any, GlobTok.lit ' ', GlobTok.lit '#', GlobTok.star] := by
  decide

theorem pattern_open : "????-??-?? (*".toList.map globTok =
    [GlobTok.any, GlobTok.any, GlobTok.any, GlobTok.any, GlobTok.lit '-', GlobTok.any, GlobTok.any,
      GlobTok.lit '-', GlobTok.any, GlobTok.any, GlobTok.lit ' ', GlobTok.lit '(', GlobTok.star] := by
  decide

theorem tagNameAllowed_false_of_session (name : String) (h : isSessionName name = true) :
    tagNameAllowed name = false := by
  unfold isSessionName glob at h
  unfold tagNameAllowed glob
  rw [pattern_plain, pattern_paren, pattern_hash] at h
  rw [pattern_plain, pattern_open, pattern_hash]
  generalize name.toList = s at h ⊢
  rcases s with _ | ⟨c0, _ | ⟨c1, _ | ⟨c2, _ | ⟨c3, _ | ⟨c4, _ | ⟨c5, _ | ⟨c6, _ | ⟨c7, _ | ⟨c8, _ | ⟨c9, t⟩⟩⟩⟩⟩⟩⟩⟩⟩⟩ <;>
    try (simp [globAux] at h; done)
  rcases t with _ | ⟨e0, _ | ⟨e1, u⟩⟩
  · simp [globAux] at h ⊢
    exact h
  · simp [globAux] at h
  · simp [globAux, globStar_closing, globStar_isEmpty] at h ⊢
    tauto

theorem buildTracks_foldl (rows : List QueryRow) (acc : List TrackData) :
    rows.foldl
        (fun currentTracks r =>
          match scanRow r with
          | some t => currentTracks ++ [t]
          | none => currentTracks)
        acc
      = acc ++ rows.filterMap scanRow := by
  induction rows generalizing acc with
  | nil => simp
  | cons r rows ih =>
    rw [List.foldl_cons, ih]
    cases h : scanRow r <;> simp [List.filterMap_cons, h]

theorem buildTracks_eq_filterMap (rows : List QueryRow) :
    buildTracks rows = rows.filterMap scanRow := by
  unfold buildTracks
  rw [buildTracks_foldl]
  simp

theorem scanRow_some_iff (r : QueryRow) (t : TrackData) :
    scanRow r = some t ↔
      ∃ bpm, r.bpm = some bpm ∧ 0 < bpm ∧
        t = { BPM := bpm
              Artist := if r.artist = none ∨ r.artist = some "" then "Unknown Artist"
                else r.artist.getD ""
              Title := if r.title = none ∨ r.title = some "" then "Unknown Title"
                else r.title.getD ""
              Duration := r.duration.getD 0
              Crates := r.crates.getD ""
              Playlists := r.playlists.getD "" } := by
  obtain ⟨bpm, artist, title, duration, crates, playlists⟩ := r
  cases bpm with
  | none => simp [scanRow]
  | some b =>
    by_cases hb : 0 < b
    · cases artist <;> cases title <;> cases duration <;> cases crates <;> cases playlists <;>
        simp [scanRow, hb, eq_comm]
    · simp [scanRow, hb]

theorem mem_sessionJoin (db : Database) (x : PlaylistTrack × LibraryRow) :
    x ∈ sessionJoin db ↔
      x.1 ∈ db.PlaylistTracks ∧ x.2 ∈ db.library ∧ x.2.id = x.1.track_id
        ∧ some x.1.playlist_id = sessionPlaylistId db := by
  unfold sessionJoin
  rw [List.mem_insertionSort]
  unfold sessionJoinUnordered
  simp only [List.mem_flatMap]
  constructor
  · rintro ⟨t, ht, pt, hpt, hx⟩
    split at hx
    · rename_i hc
      simp at hx
      subst hx
      exact ⟨hpt, ht, hc.1, hc.2⟩
    · simp at hx
  · rintro ⟨h1, h2, h3, h4⟩
    refine ⟨x.2, h2, x.1, h1, ?_⟩
    rw [if_pos ⟨h3, h4⟩]
    simp

theorem sessionJoin_sorted (db : Database) : (sessionJoin db).Sorted byPosition :=
  List.sorted_insertionSort byPosition _

theorem sessionPlaylist_eq (db : Database) :
    sessionPlaylist db =
      ((db.Playlists.filter fun p => isSessionName p.name).insertionSort newerFirst).head? := by
  unfold sessionPlaylist sessionCandidates
  simp [List.head?_take]

theorem sessionPlaylist_some (db : Database) (p : Playlist) (h : sessionPlaylist db = some p) :
    p ∈ db.Playlists ∧ isSessionName p.name = true ∧
      ∀ q ∈ db.Playlists, isSessionName q.name = true → q.date_created ≤ p.date_created := by
  rw [sessionPlaylist_eq] at h
  have hsorted := List.sorted_insertionSort newerFirst
    (db.Playlists.filter fun p => isSessionName p.name)
  have hmem : ∀ q, q ∈ (db.Playlists.filter fun p => isSessionName p.name).insertionSort newerFirst
      ↔ q ∈ db.Playlists ∧ isSessionName q.name = true := by
    intro q
    rw [List.mem_insertionSort, List.mem_filter]
  cases hs : (db.Playlists.filter fun p => isSessionName p.name).insertionSort newerFirst with
  | nil => rw [hs] at h; simp at h
  | cons a l =>
    rw [hs] at h hsorted hmem
    simp at h
    subst h
    have hp := (hmem a).1 (List.mem_cons_self _ _)
    refine ⟨hp.1, hp.2, ?_⟩
    intro q hq hqs
    have hq2 := (hmem q).2 ⟨hq, hqs⟩
    rcases List.mem_cons.1 hq2 with rfl | hql
    · exact le_refl _
    · exact List.rel_of_sorted_cons hsorted q hql

theorem sessionPlaylist_none_iff (db : Database) :
    sessionPlaylist db = none ↔ ∀ q ∈ db.Playlists, isSessionName q.name = false := by
  rw [sessionPlaylist_eq]
  rw [List.head?_eq_none_iff]
  constructor
  · intro h q hq
    have : q ∉ (db.Playlists.filter fun p => isSessionName p.name).insertionSort newerFirst := by
      rw [h]; simp
    rw [List.mem_insertionSort, List.mem_filter] at this
    by_contra hne
    exact this ⟨hq, by simpa using hne⟩
  · intro h
    have hf : (db.Playlists.filter fun p => isSessionName p.name) = [] := by
      rw [List.filter_eq_nil_iff]
      intro q hq
      simp [h q hq]
    rw [hf]
    rfl
theorem flatMap_swap {α β γ : Type} (l₁ : List α) (l₂ : List β) (f : α → β → List γ) :
    (l₁.flatMap fun a => l₂.flatMap fun b => f a b).Perm
      (l₂.flatMap fun b => l₁.flatMap fun a => f a b) := by
  have h := Multiset.bind_bind (l₁ : Multiset α) (l₂ : Multiset β)
    (f := fun a b => (f a b : Multiset γ))
  simp only [Multiset.coe_bind] at h
  exact Multiset.coe_eq_coe.1 h

theorem joined_library_rows (lib : List LibraryRow) (pt : PlaylistTrack) (c : Prop) [Decidable c] :
    (lib.flatMap fun t => if t.id = pt.track_id ∧ c then [(pt, t)] else []).map Prod.fst
      = if c then List.replicate (lib.filter fun t => t.id = pt.track_id).length pt else [] := by
  induction lib with
  | nil => simp
  | cons t lib ih =>
    rw [List.flatMap_cons, List.map_append, ih]
    by_cases hc : c <;> by_cases ht : t.id = pt.track_id <;>
      simp [hc, ht, List.filter_cons, List.replicate_succ]

theorem entries_of_session (sid : Option Int) (lib : List LibraryRow) (pts : List PlaylistTrack)
    (hint : ∀ pt ∈ pts, some pt.playlist_id = sid →
      (lib.filter fun t => t.id = pt.track_id).length = 1) :
    (pts.flatMap fun pt =>
        (lib.flatMap fun t =>
          if t.id = pt.track_id ∧ some pt.playlist_id = sid then [(pt, t)] else [])).map Prod.fst
      = pts.filter fun pt => some pt.playlist_id = sid := by
  induction pts with
  | nil => simp
  | cons pt pts ih =>
    rw [List.flatMap_cons, List.map_append, ih (fun q hq => hint q (List.mem_cons_of_mem _ hq)),
      joined_library_rows]
    by_cases hc : some pt.playlist_id = sid
    · rw [if_pos hc, hint pt (List.mem_cons_self _ _) hc]
      simp [List.filter_cons, hc]
    · simp [List.filter_cons, hc]

theorem sessionJoin_entries_perm (db : Database) (p : Playlist) (h : sessionPlaylist db = some p)
    (hint : ∀ pt ∈ db.PlaylistTracks, pt.playlist_id = p.id →
      (db.library.filter fun t => t.id = pt.track_id).length = 1) :
    ((sessionJoin db).map Prod.fst).Perm
      (db.PlaylistTracks.filter fun pt => pt.playlist_id = p.id) := by
  have hsid : sessionPlaylistId db = some p.id := by
    unfold sessionPlaylistId; rw [h]; rfl
  have h1 : ((sessionJoin db).map Prod.fst).Perm ((sessionJoinUnordered db).map Prod.fst) :=
    (List.perm_insertionSort byPosition _).map _
  have h2 : ((sessionJoinUnordered db).map Prod.fst).Perm
      ((db.PlaylistTracks.flatMap fun pt =>
        (db.library.flatMap fun t =>
          if t.id = pt.track_id ∧ some pt.playlist_id = sessionPlaylistId db then [(pt, t)]
          else [])).map Prod.fst) :=
    (flatMap_swap db.library db.PlaylistTracks _).map _
  rw [entries_of_session] at h2
  · have h3 : (db.PlaylistTracks.filter fun pt => some pt.playlist_id = sessionPlaylistId db)
        = db.PlaylistTracks.filter fun pt => pt.playlist_id = p.id := by
      rw [hsid]
      congr 1
      funext pt
      simp
    rw [h3] at h2
    exact h1.trans h2
  · intro pt hpt hc
    rw [hsid] at hc
    exact hint pt hpt (by simpa using hc)

theorem sessionQuery_nil_of_none (db : Database) (h : sessionPlaylist db = none) :
    sessionQuery db = [] := by
  have hj : sessionJoin db = [] := by
    apply List.eq_nil_iff_forall_not_mem.2
    intro x hx
    have := ((mem_sessionJoin db x).1 hx).2.2.2
    unfold sessionPlaylistId at this
    rw [h] at this
    simp at this
  unfold sessionQuery
  rw [hj]
  rfl

theorem sessionPlaylist_isSome (db : Database) (q : Playlist) (hq : q ∈ db.Playlists)
    (hs : isSessionName q.name = true) : ∃ p, sessionPlaylist db = some p := by
  cases h : sessionPlaylist db with
  | some p => exact ⟨p, rfl⟩
  | none =>
    have := (sessionPlaylist_none_iff db).1 h q hq
    rw [hs] at this
    cases this

theorem pollCycle_available (db : Database) (s : AppState) :
    (pollCycle (DBStatus.available db) s).1.tracks
      = (sessionJoin db).filterMap fun x => scanRow (selectRow db x.2) := by
  show (buildTracks (sessionQuery db)) = _
  rw [buildTracks_eq_filterMap]
  unfold sessionQuery
  rw [List.filterMap_map]
  rfl

theorem mem_sessionJoin_of_session (db : Database) (p : Playlist) (h : sessionPlaylist db = some p)
    (x : PlaylistTrack × LibraryRow) :
    x ∈ sessionJoin db ↔
      x.1 ∈ db.PlaylistTracks ∧ x.2 ∈ db.library ∧ x.2.id = x.1.track_id
        ∧ x.1.playlist_id = p.id := by
  rw [mem_sessionJoin]
  unfold sessionPlaylistId
  rw [h]
  simp
theorem coalesce_groupConcat (names : List String) :
    coalesceEmpty (groupConcat names) = ", ".intercalate names := by
  cases names <;> rfl

theorem mem_tagPlaylists (db : Database) (trackId : Int) (p2 : Playlist) :
    p2 ∈ tagPlaylists db trackId ↔
      p2 ∈ db.Playlists
        ∧ (∃ pt2 ∈ db.PlaylistTracks, pt2.playlist_id = p2.id ∧ pt2.track_id = trackId)
        ∧ tagNameAllowed p2.name = true ∧ p2.hidden = 0 := by
  unfold tagPlaylists
  simp only [List.mem_flatMap]
  constructor
  · rintro ⟨pt2, hpt2, q, hq, hx⟩
    split at hx
    · rename_i hc
      simp at hx
      subst hx
      exact ⟨hq, ⟨pt2, hpt2, hc.1, hc.2.1⟩, hc.2.2.1, hc.2.2.2⟩
    · simp at hx
  · rintro ⟨h1, ⟨pt2, hpt2, h2, h3⟩, h4, h5⟩
    refine ⟨pt2, hpt2, p2, h1, ?_⟩
    rw [if_pos ⟨h2, h3, h4, h5⟩]
    simp

theorem mem_committed (db : Database) (s : AppState) (tr : TrackData)
    (h : tr ∈ (pollCycle (DBStatus.available db) s).1.tracks) :
    ∃ x ∈ sessionJoin db, scanRow (selectRow db x.2) = some tr := by
  rw [pollCycle_available, List.mem_filterMap] at h
  exact h

theorem sorted_tagged_positions (g : PlaylistTrack × LibraryRow → Option TrackData)
    (l : List (PlaylistTrack × LibraryRow)) (hl : l.Sorted byPosition) :
    ((l.filterMap fun x => (g x).map fun t => (x.1.position, t)).map Prod.fst).Sorted
      (fun a b : Int => a ≤ b) := by
  induction l with
  | nil => simp
  | cons x l ih =>
    have hx := List.rel_of_sorted_cons hl
    have hl2 := List.Sorted.of_cons hl
    rw [List.filterMap_cons]
    cases hg : g x with
    | none => simpa [hg] using ih hl2
    | some t =>
      simp only [hg, Option.map_some', List.map_cons]
      rw [List.sorted_cons]
      refine ⟨?_, ih hl2⟩
      intro b hb
      rw [List.mem_map] at hb
      obtain ⟨⟨pos, t2⟩, hmem, rfl⟩ := hb
      rw [List.mem_filterMap] at hmem
      obtain ⟨y, hy, hgy⟩ := hmem
      cases hgy2 : g y with
      | none => simp [hgy2] at hgy
      | some u =>
        simp [hgy2] at hgy
        rw [← hgy.1]
        exact hx y hy

theorem map_snd_tagged (g : PlaylistTrack × LibraryRow → Option TrackData)
    (l : List (PlaylistTrack × LibraryRow)) :
    (l.filterMap fun x => (g x).map fun t => (x.1.position, t)).map Prod.snd = l.filterMap g := by
  induction l with
  | nil => rfl
  | cons x l ih =>
    rw [List.filterMap_cons, List.filterMap_cons]
    cases hg : g x <;> simp [hg, ih]

/-! ## The claims -/

/-- C1: the rows the session query returns are the `PlaylistTracks` entries
(joined to their `library` rows) of one playlist, the playlist whose name
passes the selection patterns and whose `date_created` is the latest among
such playlists; with referential integrity there is one row per entry. Of
two qualifying playlists with different timestamps the earlier is never
selected, and when they are the only qualifying ones every returned row is
an entry of the later, whatever their names. On `scenarioDB` the snapshot is
the single track of `2024-01-02 (live)`. -/
theorem session_query_reads_latest_session :
    (∀ db : Database,
      (∀ p, sessionPlaylist db = some p →
        p ∈ db.Playlists ∧ isSessionName p.name = true
        ∧ (∀ q ∈ db.Playlists, isSessionName q.name = true → q.date_created ≤ p.date_created)
        ∧ (∀ x, x ∈ sessionJoin db ↔
            x.1 ∈ db.PlaylistTracks ∧ x.2 ∈ db.library ∧ x.2.id = x.1.track_id
              ∧ x.1.playlist_id = p.id)
        ∧ ((∀ pt ∈ db.PlaylistTracks, pt.playlist_id = p.id →
              (db.library.filter fun t => t.id = pt.track_id).length = 1) →
            ((sessionJoin db).map Prod.fst).Perm
              (db.PlaylistTracks.filter fun pt => pt.playlist_id = p.id)))
      ∧ ((∃ q ∈ db.Playlists, isSessionName q.name = true) → ∃ p, sessionPlaylist db = some p)
      ∧ (sessionPlaylist db = none → sessionQuery db = [])
      ∧ sessionQuery db = (sessionJoin db).map (fun x => selectRow db x.2)
      ∧ (∀ a b, a ∈ db.Playlists → b ∈ db.Playlists →
          isSessionName a.name = true → isSessionName b.name = true →
          a.date_created < b.date_created →
          sessionPlaylist db ≠ some a
          ∧ ((∀ q ∈ db.Playlists, isSessionName q.name = true → q = a ∨ q = b) →
              sessionPlaylist db = some b ∧ ∀ x ∈ sessionJoin db, x.1.playlist_id = b.id)))
    ∧ sessionPlaylist scenarioDB = some scenarioLive
    ∧ (pollCycle (DBStatus.available scenarioDB) initialState).1.tracks = [scenarioTrack] := by
  refine ⟨fun db => ⟨?_, ?_, sessionQuery_nil_of_none db, rfl, ?_⟩, by decide, by decide⟩
  · intro p hp
    obtain ⟨h1, h2, h3⟩ := sessionPlaylist_some db p hp
    exact ⟨h1, h2, h3, mem_sessionJoin_of_session db p hp, sessionJoin_entries_perm db p hp⟩
  · rintro ⟨q, hq, hs⟩
    exact sessionPlaylist_isSome db q hq hs
  · intro a b ha hb hsa hsb hlt
    have hne : sessionPlaylist db ≠ some a := by
      intro h
      have := (sessionPlaylist_some db a h).2.2 b hb hsb
      omega
    refine ⟨hne, ?_⟩
    intro honly
    obtain ⟨p, hp⟩ := sessionPlaylist_isSome db b hb hsb
    obtain ⟨h1, h2, _⟩ := sessionPlaylist_some db p hp
    have hpb : p = b := by
      rcases honly p h1 h2 with h | h
      · rw [h] at hp; exact absurd hp hne
      · exact h
    subst hpb
    exact ⟨hp, fun x hx => ((mem_sessionJoin_of_session db p hp x).1 hx).2.2.2⟩

/-- The statement of C1 at `scenarioDB`: `2024-01-01` is not selected,
`2024-01-02 (live)` is, and every returned row is an entry of playlist 11. -/
theorem session_query_reads_latest_session_witness :
    sessionPlaylist scenarioDB ≠ some scenarioEarly
      ∧ sessionPlaylist scenarioDB = some scenarioLive
      ∧ ∀ x ∈ sessionJoin scenarioDB, x.1.playlist_id = 11 := by
  have h := (session_query_reads_latest_session.1 scenarioDB).2.2.2.2 scenarioEarly scenarioLive
    (by decide) (by decide) (by decide) (by decide) (by decide)
  exact ⟨h.1, h.2 (by decide)⟩

theorem scanRow_selectRow_pos (db : Database) (t : LibraryRow) (b : ℚ) (hb : t.bpm = some b)
    (hpos : 0 < b) :
    scanRow (selectRow db t)
      = some
          { BPM := b
            Artist := if t.artist = none ∨ t.artist = some "" then "Unknown Artist"
              else t.artist.getD ""
            Title := if t.title = none ∨ t.title = some "" then "Unknown Title"
              else t.title.getD ""
            Duration := t.duration.getD 0
            Crates := ", ".intercalate (crateNames db t.id)
            Playlists := ", ".intercalate (tagNames db t.id) } := by
  rw [scanRow_some_iff]
  refine ⟨b, hb, hpos, ?_⟩
  simp only [selectRow, Option.getD_some, coalesce_groupConcat]

theorem scanRow_selectRow_none (db : Database) (t : LibraryRow)
    (h : t.bpm = none ∨ ∃ b, t.bpm = some b ∧ b ≤ 0) : scanRow (selectRow db t) = none := by
  rcases h with h | ⟨b, hb, hle⟩
  · simp [scanRow, selectRow, h]
  · simp [scanRow, selectRow, hb, not_lt.2 hle]

theorem committed_eq_kept_rows (db : Database) (l : List (PlaylistTrack × LibraryRow)) :
    l.filterMap (fun x => scanRow (selectRow db x.2))
      = (l.filter fun x => (x.2.bpm.filter fun b => decide (0 < b)).isSome).map fun x =>
          { BPM := x.2.bpm.getD 0
            Artist := if x.2.artist = none ∨ x.2.artist = some "" then "Unknown Artist"
              else x.2.artist.getD ""
            Title := if x.2.title = none ∨ x.2.title = some "" then "Unknown Title"
              else x.2.title.getD ""
            Duration := x.2.duration.getD 0
            Crates := ", ".intercalate (crateNames db x.2.id)
            Playlists := ", ".intercalate (tagNames db x.2.id) } := by
  induction l with
  | nil => rfl
  | cons x l ih =>
    rw [List.filterMap_cons, List.filter_cons]
    cases hb : x.2.bpm with
    | none =>
      rw [scanRow_selectRow_none db x.2 (Or.inl hb)]
      simpa [Option.filter] using ih
    | some b =>
      by_cases hpos : 0 < b
      · rw [scanRow_selectRow_pos db x.2 b hb hpos]
        simp [Option.filter, hpos, hb, ih]
      · rw [scanRow_selectRow_none db x.2 (Or.inr ⟨b, hb, not_lt.1 hpos⟩)]
        simpa [Option.filter, hpos] using ih

theorem kept_positions_sorted (l : List (PlaylistTrack × LibraryRow)) (hl : l.Sorted byPosition)
    (p : PlaylistTrack × LibraryRow → Bool) :
    ((l.filter p).map fun x => x.1.position).Sorted (fun a b : Int => a ≤ b) := by
  have h1 : (l.filter p).Sorted byPosition := List.Pairwise.sublist (List.filter_sublist l) hl
  exact List.pairwise_map.2 h1

/-- C2: after a successful poll cycle the committed snapshot is built from
exactly those rows of the selected session playlist whose library bpm is
present and greater than 0, one track per such row, in the order of the
query, which is ascending `position`: rows with bpm NULL or not positive
are dropped and the remaining rows are never reordered. If the selected
playlist holds an entry whose library row has bpm > 0, the snapshot is not
empty. -/
theorem committed_snapshot_in_position_order (db : Database) (s : AppState) :
    (pollCycle (DBStatus.available db) s).1.tracks
        = ((sessionJoin db).filter fun x =>
            (x.2.bpm.filter fun b => decide (0 < b)).isSome).map (fun x =>
              { BPM := x.2.bpm.getD 0
                Artist := if x.2.artist = none ∨ x.2.artist = some "" then "Unknown Artist"
                  else x.2.artist.getD ""
                Title := if x.2.title = none ∨ x.2.title = some "" then "Unknown Title"
                  else x.2.title.getD ""
                Duration := x.2.duration.getD 0
                Crates := ", ".intercalate (crateNames db x.2.id)
                Playlists := ", ".intercalate (tagNames db x.2.id) })
    ∧ (((sessionJoin db).filter fun x =>
            (x.2.bpm.filter fun b => decide (0 < b)).isSome).map fun x => x.1.position).Sorted
          (fun a b : Int => a ≤ b)
    ∧ ((sessionJoin db).filter fun x =>
            (x.2.bpm.filter fun b => decide (0 < b)).isSome).Sublist (sessionJoin db)
    ∧ (∀ x, x ∈ ((sessionJoin db).filter fun x =>
            (x.2.bpm.filter fun b => decide (0 < b)).isSome)
          ↔ x ∈ sessionJoin db ∧ ∃ b, x.2.bpm = some b ∧ 0 < b)
    ∧ (∀ tr ∈ (pollCycle (DBStatus.available db) s).1.tracks,
          ∃ x ∈ sessionJoin db, x.2.bpm = some tr.BPM ∧ 0 < tr.BPM)
    ∧ (∀ x ∈ sessionJoin db, ∀ b, x.2.bpm = some b → 0 < b →
          ∃ tr ∈ (pollCycle (DBStatus.available db) s).1.tracks, tr.BPM = b)
    ∧ (pollCycle (DBStatus.available db) s).1.tracks
        = (sessionJoin db).filterMap (fun x => scanRow (selectRow db x.2))
    ∧ (sessionJoin db).Sorted (fun x y => x.1.position ≤ y.1.position)
    ∧ (pollCycle (DBStatus.available db) s).1.tracks
        = ((sessionJoin db).filterMap fun x =>
            (scanRow (selectRow db x.2)).map fun t => (x.1.position, t)).map Prod.snd
    ∧ (((sessionJoin db).filterMap fun x =>
            (scanRow (selectRow db x.2)).map fun t => (x.1.position, t)).map Prod.fst).Sorted
          (fun a b : Int => a ≤ b)
    ∧ (∀ x ∈ sessionJoin db, some x.1.playlist_id = sessionPlaylistId db
          ∧ ∀ t, scanRow (selectRow db x.2) = some t → 0 < t.BPM)
    ∧ (∀ p pt t b, sessionPlaylist db = some p → pt ∈ db.PlaylistTracks → t ∈ db.library →
          pt.playlist_id = p.id → t.id = pt.track_id → t.bpm = some b → 0 < b →
          (pollCycle (DBStatus.available db) s).1.tracks ≠ []) := by
  have hkept : ∀ x, x ∈ ((sessionJoin db).filter fun x =>
        (x.2.bpm.filter fun b => decide (0 < b)).isSome)
      ↔ x ∈ sessionJoin db ∧ ∃ b, x.2.bpm = some b ∧ 0 < b := by
    intro x
    rw [List.mem_filter]
    cases hb : x.2.bpm with
    | none => simp [Option.filter]
    | some b =>
      by_cases hpos : 0 < b <;> simp [Option.filter, hpos]
  have hkeep : ∀ x ∈ sessionJoin db, ∀ b, x.2.bpm = some b → 0 < b →
      ∃ tr ∈ (pollCycle (DBStatus.available db) s).1.tracks, tr.BPM = b := by
    intro x hx b hb hpos
    have hscan := scanRow_selectRow_pos db x.2 b hb hpos
    have hmem : ∀ tr, scanRow (selectRow db x.2) = some tr →
        tr ∈ (pollCycle (DBStatus.available db) s).1.tracks := by
      intro tr htr
      rw [pollCycle_available, List.mem_filterMap]
      exact ⟨x, hx, htr⟩
    exact ⟨_, hmem _ hscan, rfl⟩
  refine ⟨?_, kept_positions_sorted _ (sessionJoin_sorted db) _, List.filter_sublist _, hkept, ?_,
    hkeep, pollCycle_available db s, sessionJoin_sorted db, ?_, ?_, ?_, ?_⟩
  · rw [pollCycle_available, committed_eq_kept_rows]
  · intro tr htr
    obtain ⟨x, hx, hscan⟩ := mem_committed db s tr htr
    obtain ⟨bpm, hb, hpos, rfl⟩ := (scanRow_some_iff _ _).1 hscan
    exact ⟨x, hx, hb, hpos⟩
  · rw [map_snd_tagged, pollCycle_available]
  · exact sorted_tagged_positions _ _ (sessionJoin_sorted db)
  · intro x hx
    refine ⟨((mem_sessionJoin db x).1 hx).2.2.2, ?_⟩
    intro t ht
    obtain ⟨bpm, _, hpos, rfl⟩ := (scanRow_some_iff _ _).1 ht
    exact hpos
  · intro p pt t b hp hpt ht hid htid hb hpos
    have hx : (pt, t) ∈ sessionJoin db :=
      (mem_sessionJoin_of_session db p hp (pt, t)).2 ⟨hpt, ht, htid, hid⟩
    obtain ⟨tr, htr, _⟩ := hkeep (pt, t) hx b hb hpos
    intro hnil
    rw [hnil] at htr
    cases htr

/-- The statement of C2 at `orderDB`: of the five entries, stored out of
order and with bpm 120, 0, NULL, 90 and -5, the snapshot keeps the entry at
position 3 and then the entry at position 4; it is not empty. -/
theorem committed_snapshot_in_position_order_witness :
    (pollCycle (DBStatus.available orderDB) initialState).1.tracks = orderTracks
      ∧ (((sessionJoin orderDB).filter fun x =>
            (x.2.bpm.filter fun b => decide (0 < b)).isSome).map fun x => x.1.position) = [3, 4]
      ∧ (sessionJoin orderDB).map (fun x => x.1.position) = [1, 2, 3, 4, 5]
      ∧ (pollCycle (DBStatus.available orderDB) initialState).1.tracks ≠ [] :=
  ⟨(committed_snapshot_in_position_order orderDB initialState).1.trans (by decide),
    by decide, by decide,
    (committed_snapshot_in_position_order orderDB initialState).2.2.2.2.2.2.2.2.2.2.2 orderPlaylist
      { playlist_id := 1, track_id := 1, position := 4 }
      { id := 1, bpm := some 120, artist := some "Ana", title := some "One",
        duration := some 300 }
      120 (by decide) (by decide) (by decide) (by decide) (by decide) (by decide) (by decide)⟩

theorem scanRow_bpm_pos (r : QueryRow) (t : TrackData) (h : scanRow r = some t) : 0 < t.BPM := by
  obtain ⟨bpm, _, hpos, rfl⟩ := (scanRow_some_iff r t).1 h
  exact hpos

theorem buildTracks_bpm_pos (rows : List QueryRow) : ∀ t ∈ buildTracks rows, 0 < t.BPM := by
  intro t ht
  rw [buildTracks_eq_filterMap, List.mem_filterMap] at ht
  obtain ⟨r, _, hr⟩ := ht
  exact scanRow_bpm_pos r t hr

theorem step_preserves_bpm_pos (s : AppState) (e : Event) (h : ∀ t ∈ s.tracks, 0 < t.BPM) :
    ∀ t ∈ (step s e).tracks, 0 < t.BPM := by
  cases e with
  | read => exact h
  | poll st =>
    cases st with
    | unavailable => exact h
    | available db => exact buildTracks_bpm_pos (sessionQuery db)

theorem runEvents_preserves_bpm_pos (es : List Event) :
    ∀ s : AppState, (∀ t ∈ s.tracks, 0 < t.BPM) → ∀ t ∈ (runEvents s es).tracks, 0 < t.BPM := by
  induction es with
  | nil => intro s h; exact h
  | cons e es ih =>
    intro s h
    exact ih (step s e) (step_preserves_bpm_pos s e h)

/-- C3: in every state reached from the empty store by poll cycles
(successful or failed) and reads, every stored track has bpm > 0, and
`serveData` encodes exactly the stored tracks. A row whose bpm is NULL or
not positive appends nothing, whatever its other columns; every row of the
same poll with a positive bpm is in the committed snapshot. -/
theorem published_tracks_have_positive_bpm (encodeTrack : TrackData → String)
    (es : List Event) :
    (∀ t ∈ (runEvents initialState es).tracks, 0 < t.BPM)
    ∧ (serveData encodeTrack (runEvents initialState es)).body
        = encodeTracks encodeTrack (runEvents initialState es).tracks
    ∧ (∀ r : QueryRow, (r.bpm = none ∨ ∃ b, r.bpm = some b ∧ b ≤ 0) → scanRow r = none)
    ∧ (∀ (db : Database) (s : AppState),
        (pollCycle (DBStatus.available db) s).1.tracks = (sessionQuery db).filterMap scanRow)
    ∧ (∀ (db : Database) (s : AppState) (r : QueryRow) (b : ℚ), r ∈ sessionQuery db →
        r.bpm = some b → 0 < b →
        ∃ t, scanRow r = some t ∧ t.BPM = b
          ∧ t ∈ (pollCycle (DBStatus.available db) s).1.tracks) := by
  refine ⟨runEvents_preserves_bpm_pos es initialState (by simp [initialState]), rfl, ?_,
    fun db _ => buildTracks_eq_filterMap (sessionQuery db), ?_⟩
  · rintro r (h | ⟨b, hb, hle⟩)
    · simp [scanRow, h]
    · simp [scanRow, hb, not_lt.2 hle]
  · intro db s r b hr hb hpos
    have hsome : ∃ t, scanRow r = some t ∧ t.BPM = b := by
      simp [scanRow, hb, hpos]
    obtain ⟨t, ht, htb⟩ := hsome
    refine ⟨t, ht, htb, ?_⟩
    show t ∈ buildTracks (sessionQuery db)
    rw [buildTracks_eq_filterMap, List.mem_filterMap]
    exact ⟨r, hr, ht⟩

/-- The statement of C3 on a run with a successful poll of `scenarioDB`, a
failed poll and a read: the track with bpm 0 is not stored and the track
with bpm 128 is. -/
theorem published_tracks_have_positive_bpm_witness :
    (runEvents initialState
        [Event.poll (DBStatus.available scenarioDB), Event.poll DBStatus.unavailable,
          Event.read]).tracks = [scenarioTrack]
      ∧ ∀ t ∈ (runEvents initialState
        [Event.poll (DBStatus.available scenarioDB), Event.poll DBStatus.unavailable,
          Event.read]).tracks, 0 < t.BPM :=
  ⟨by decide, (published_tracks_have_positive_bpm (fun _ => "") _).1⟩

theorem scanRow_artist_title (r : QueryRow) (tr : TrackData) (h : scanRow r = some tr) :
    tr.Artist ≠ "" ∧ tr.Title ≠ ""
    ∧ ((r.artist = none ∨ r.artist = some "") → tr.Artist = "Unknown Artist")
    ∧ (∀ a, r.artist = some a → a ≠ "" → tr.Artist = a)
    ∧ ((r.title = none ∨ r.title = some "") → tr.Title = "Unknown Title")
    ∧ (∀ a, r.title = some a → a ≠ "" → tr.Title = a) := by
  obtain ⟨bpm, _, _, rfl⟩ := (scanRow_some_iff r tr).1 h
  obtain ⟨rb, artist, title, duration, crates, playlists⟩ := r
  dsimp only
  refine ⟨?_, ?_, ?_, ?_, ?_, ?_⟩
  · cases artist with
    | none => simp
    | some a =>
      by_cases ha : a = ""
      · simp [ha]
      · simp [ha]
  · cases title with
    | none => simp
    | some a =>
      by_cases ha : a = ""
      · simp [ha]
      · simp [ha]
  · intro hc
    rw [if_pos hc]
  · intro a ha hne
    subst ha
    simp [hne]
  · intro hc
    rw [if_pos hc]
  · intro a ha hne
    subst ha
    simp [hne]

/-- C4: every track of a snapshot built by a poll cycle has a non-empty
artist and title: the placeholder `Unknown Artist` (`Unknown Title`) when
the source column is NULL or the empty string, the source value otherwise. -/
theorem snapshot_artist_title_nonempty (db : Database) (s : AppState) (tr : TrackData)
    (h : tr ∈ (pollCycle (DBStatus.available db) s).1.tracks) :
    tr.Artist ≠ "" ∧ tr.Title ≠ ""
    ∧ ∃ x ∈ sessionJoin db, scanRow (selectRow db x.2) = some tr
        ∧ ((x.2.artist = none ∨ x.2.artist = some "") → tr.Artist = "Unknown Artist")
        ∧ (∀ a, x.2.artist = some a → a ≠ "" → tr.Artist = a)
        ∧ ((x.2.title = none ∨ x.2.title = some "") → tr.Title = "Unknown Title")
        ∧ (∀ a, x.2.title = some a → a ≠ "" → tr.Title = a) := by
  obtain ⟨x, hx, hscan⟩ := mem_committed db s tr h
  obtain ⟨h1, h2, h3, h4, h5, h6⟩ := scanRow_artist_title _ tr hscan
  exact ⟨h1, h2, x, hx, hscan, h3, h4, h5, h6⟩

/-- The statement of C4 at the track built from `scenarioDB`, whose source
artist is the empty string. -/
theorem snapshot_artist_title_nonempty_witness :
    scenarioTrack.Artist ≠ "" ∧ scenarioTrack.Title ≠ "" :=
  ⟨(snapshot_artist_title_nonempty scenarioDB initialState scenarioTrack (by decide)).1,
    (snapshot_artist_title_nonempty scenarioDB initialState scenarioTrack (by decide)).2.1⟩

/-- C5: a poll cycle whose `db.Query` fails leaves `appState` as it was, so
`serveData` answers after it as it did before; when the next cycle
succeeds, the store holds the snapshot built by that cycle and `serveData`
encodes it. -/
theorem failed_poll_keeps_snapshot (encodeTrack : TrackData → String) (s : AppState)
    (st : DBStatus) (e : String) (h : dbQuery st = Except.error e) :
    (pollCycle st s).1 = s
    ∧ serveData encodeTrack (pollCycle st s).1 = serveData encodeTrack s
    ∧ runEvents s [Event.poll st, Event.read] = s
    ∧ ∀ db : Database,
        (pollMixxxDB [st, DBStatus.available db] s).1.tracks = buildTracks (sessionQuery db)
        ∧ (pollMixxxDB [st, DBStatus.available db] s).1.tracks
            = (sessionQuery db).filterMap scanRow
        ∧ (serveData encodeTrack (pollMixxxDB [st, DBStatus.available db] s).1).body
            = encodeTracks encodeTrack (buildTracks (sessionQuery db)) := by
  have hs : (pollCycle st s).1 = s := by
    unfold pollCycle
    rw [h]
  refine ⟨hs, by rw [hs], ?_, ?_⟩
  · show step (step s (Event.poll st)) Event.read = s
    exact hs
  · intro db
    have hrun : (pollMixxxDB [st, DBStatus.available db] s).1.tracks
        = buildTracks (sessionQuery db) := by
      show (pollCycle (DBStatus.available db) (pollCycle st s).1).1.tracks = _
      rfl
    refine ⟨hrun, by rw [hrun, buildTracks_eq_filterMap], ?_⟩
    show encodeTracks encodeTrack (pollMixxxDB [st, DBStatus.available db] s).1.tracks = _
    rw [hrun]

/-- The statement of C5 with the snapshot of `scenarioDB` in the store, a
failed cycle, and then a successful cycle on `tagDB`. -/
theorem failed_poll_keeps_snapshot_witness :
    (pollCycle DBStatus.unavailable { tracks := [scenarioTrack] }).1
        = { tracks := [scenarioTrack] }
      ∧ (pollMixxxDB [DBStatus.unavailable, DBStatus.available tagDB]
          { tracks := [scenarioTrack] }).1.tracks = [tagTrack] := by
  have h := failed_poll_keeps_snapshot (fun _ => "") { tracks := [scenarioTrack] }
    DBStatus.unavailable "query failed" rfl
  refine ⟨h.1, ?_⟩
  rw [(h.2.2.2 tagDB).1]
  decide

/-- C6: with no playlist name matching the selection patterns, a successful
poll cycle commits the empty snapshot, which is the nil slice, and
`serveData` then writes the JSON value `null` followed by a newline, not
`[]`. -/
theorem empty_session_body_is_null (encodeTrack : TrackData → String) (db : Database)
    (s : AppState) (h : ∀ p ∈ db.Playlists, isSessionName p.name = false) :
    sessionQuery db = []
    ∧ (pollCycle (DBStatus.available db) s).1.tracks = []
    ∧ (serveData encodeTrack (pollCycle (DBStatus.available db) s).1).body = "null\n"
    ∧ (serveData encodeTrack (pollCycle (DBStatus.available db) s).1).body ≠ "[]"
    ∧ (serveData encodeTrack (pollCycle (DBStatus.available db) s).1).body ≠ "[]\n" := by
  have hq : sessionQuery db = [] :=
    sessionQuery_nil_of_none db ((sessionPlaylist_none_iff db).2 h)
  have ht : (pollCycle (DBStatus.available db) s).1.tracks = [] := by
    show buildTracks (sessionQuery db) = []
    rw [hq]
    rfl
  have hb : (serveData encodeTrack (pollCycle (DBStatus.available db) s).1).body = "null\n" := by
    show encodeTracks encodeTrack (pollCycle (DBStatus.available db) s).1.tracks = _
    rw [ht]
    rfl
  refine ⟨hq, ht, hb, ?_, ?_⟩
  · rw [hb]; decide
  · rw [hb]; decide

/-- The statement of C6 at `noSessionDB`, whose only playlist is
`Favourites`. -/
theorem empty_session_body_is_null_witness :
    (serveData (fun _ => "") (pollCycle (DBStatus.available noSessionDB) initialState).1).body
      = "null\n" :=
  (empty_session_body_is_null (fun _ => "") noSessionDB initialState (by decide)).2.2.1

/-- C7: the `playlists` field of every track of a snapshot is the `, `-join
of the names of playlists that contain the track, have `hidden = 0` and
whose name fails the selection patterns; every name the selection patterns
accept is rejected by the tag filter, so the selected session playlist is
never among the tags. -/
theorem tags_exclude_hidden_and_session (db : Database) (s : AppState) :
    (∀ name : String, isSessionName name = true → tagNameAllowed name = false)
    ∧ ∀ tr ∈ (pollCycle (DBStatus.available db) s).1.tracks,
        ∃ x ∈ sessionJoin db,
          tr.Playlists = ", ".intercalate ((tagPlaylists db x.2.id).map fun p2 => p2.name)
          ∧ (∀ p2 ∈ tagPlaylists db x.2.id,
              p2 ∈ db.Playlists ∧ p2.hidden = 0 ∧ isSessionName p2.name = false
              ∧ ∃ pt2 ∈ db.PlaylistTracks, pt2.playlist_id = p2.id ∧ pt2.track_id = x.2.id)
          ∧ (∀ n ∈ tagNames db x.2.id, isSessionName n = false)
          ∧ (∀ p, sessionPlaylist db = some p →
              p ∉ tagPlaylists db x.2.id ∧ p.name ∉ tagNames db x.2.id) := by
  have hnot : ∀ name : String, tagNameAllowed name = true → isSessionName name = false := by
    intro name hallowed
    cases hs : isSessionName name with
    | false => rfl
    | true =>
      rw [tagNameAllowed_false_of_session name hs] at hallowed
      cases hallowed
  have hnames : ∀ k n, n ∈ tagNames db k → isSessionName n = false := by
    intro k n hn
    unfold tagNames at hn
    rw [List.mem_map] at hn
    obtain ⟨p2, hp2, rfl⟩ := hn
    exact hnot _ ((mem_tagPlaylists db k p2).1 hp2).2.2.1
  refine ⟨tagNameAllowed_false_of_session, ?_⟩
  intro tr htr
  obtain ⟨x, hx, hscan⟩ := mem_committed db s tr htr
  obtain ⟨bpm, _, _, rfl⟩ := (scanRow_some_iff _ _).1 hscan
  refine ⟨x, hx, ?_, ?_, hnames x.2.id, ?_⟩
  · show coalesceEmpty (groupConcat (tagNames db x.2.id)) = _
    rw [coalesce_groupConcat]
    rfl
  · intro p2 hp2
    obtain ⟨h1, h2, h3, h4⟩ := (mem_tagPlaylists db x.2.id p2).1 hp2
    exact ⟨h1, h4, hnot _ h3, h2⟩
  · intro p hp
    have hsess := (sessionPlaylist_some db p hp).2.1
    constructor
    · intro hmem
      have := hnot _ ((mem_tagPlaylists db x.2.id p).1 hmem).2.2.1
      rw [hsess] at this
      cases this
    · intro hmem
      have := hnames x.2.id p.name hmem
      rw [hsess] at this
      cases this

/-- The statement of C7 at the track built from `tagDB`: its tags are those
of a visible playlist with a name that fails the selection patterns. -/
theorem tags_exclude_hidden_and_session_witness :
    ∃ x ∈ sessionJoin tagDB,
      tagTrack.Playlists = ", ".intercalate ((tagPlaylists tagDB x.2.id).map fun p2 => p2.name)
      ∧ ∀ p2 ∈ tagPlaylists tagDB x.2.id, p2.hidden = 0 ∧ isSessionName p2.name = false := by
  obtain ⟨x, hx, h1, h2, _⟩ :=
    (tags_exclude_hidden_and_session tagDB initialState).2 tagTrack (by decide)
  exact ⟨x, hx, h1, fun p2 hp2 => ⟨(h2 p2 hp2).2.1, (h2 p2 hp2).2.2.1⟩⟩

/-- C8: on `tagDB` the playlist `2024-01-01 (warmup` contains track 7, is
not hidden and fails the selection patterns, and its name is not among the
tags of the track: the `playlists` field is `Favourites`. -/
theorem unclosed_parenthesis_playlist_not_shown :
    warmupPlaylist ∈ tagDB.Playlists
    ∧ warmupPlaylist.hidden = 0
    ∧ isSessionName warmupPlaylist.name = false
    ∧ { playlist_id := 2, track_id := 7, position := 1 } ∈ tagDB.PlaylistTracks
    ∧ tagNameAllowed warmupPlaylist.name = false
    ∧ warmupPlaylist.name ∉ tagNames tagDB 7
    ∧ tagNames tagDB 7 = ["Favourites"]
    ∧ (pollCycle (DBStatus.available tagDB) initialState).1.tracks = [tagTrack]
    ∧ tagTrack.Playlists = "Favourites" := by
  decide

/-- C10, as stated, fails: after a failed query the loop sleeps 5 seconds
in all, not the backoff plus the base interval, and the base interval is
not slept. -/
theorem failed_cycle_skips_base_sleep :
    (pollCycle DBStatus.unavailable initialState).2.sum = 5
      ∧ (pollCycle DBStatus.unavailable initialState).2.sum ≠ errorBackoff + baseInterval
      ∧ baseInterval ∉ (pollCycle DBStatus.unavailable initialState).2 := by
  decide

/-- C10, amended: a cycle whose query fails sleeps the error backoff of 5
seconds and nothing more; a cycle whose query succeeds sleeps the base
interval of 2 seconds; the loop sleeps accordingly once per cycle. -/
theorem poll_cycle_sleeps (s : AppState) :
    (∀ st e, dbQuery st = Except.error e → (pollCycle st s).2 = [5])
    ∧ (∀ st rows, dbQuery st = Except.ok rows → (pollCycle st s).2 = [2])
    ∧ (pollCycle DBStatus.unavailable s).2 = [errorBackoff]
    ∧ (∀ db, (pollCycle (DBStatus.available db) s).2 = [baseInterval])
    ∧ ∀ sts : List DBStatus,
        (pollMixxxDB sts s).2
          = sts.map fun st =>
              match st with
              | DBStatus.unavailable => 5
              | DBStatus.available _ => 2 := by
  refine ⟨?_, ?_, rfl, fun _ => rfl, ?_⟩
  · intro st e h
    unfold pollCycle
    rw [h]
    rfl
  · intro st rows h
    unfold pollCycle
    rw [h]
    rfl
  · intro sts
    induction sts generalizing s with
    | nil => rfl
    | cons st sts ih =>
      show (pollCycle st s).2 ++ (pollMixxxDB sts (pollCycle st s).1).2 = _
      rw [ih]
      cases st <;> rfl

/-- The statement of C10, amended, on three cycles: failed, successful,
failed. -/
theorem poll_cycle_sleeps_witness :
    (pollCycle DBStatus.unavailable initialState).2 = [5]
      ∧ (pollCycle (DBStatus.available scenarioDB) initialState).2 = [2]
      ∧ (pollMixxxDB
          [DBStatus.unavailable, DBStatus.available scenarioDB, DBStatus.unavailable]
          initialState).2 = [5, 2, 5] :=
  ⟨(poll_cycle_sleeps initialState).1 DBStatus.unavailable "query failed" rfl,
    (poll_cycle_sleeps initialState).2.1 (DBStatus.available scenarioDB) _ rfl,
    (poll_cycle_sleeps initialState).2.2.2.2 _⟩

end MixxxBuddy
